import Mathlib

/-!
Shallow embedding of the multi-hop reasoning pipeline (planner, hybrid
retriever, graph builder, path reasoner, chain validator, answer
synthesizer) and proofs about it.  Python floats are modelled as exact
rationals; external primitives (the md5 content hash, Python `eval`,
`str()` rendering of result dictionaries) are explicit function
parameters, so every statement quantifies over them; stateful classes
are modelled by explicit state passing.
-/

/-- Character-list prefix test (models Python substring machinery). -/
def strStartsWith : List Char → List Char → Bool
  | [], _ => true
  | _ :: _, [] => false
  | a :: as, b :: bs => a == b && strStartsWith as bs

/-- Substring test on character lists: `strHasSub needle hay` is true iff
`needle` occurs contiguously in `hay`. -/
def strHasSub (needle : List Char) : List Char → Bool
  | [] => needle.isEmpty
  | b :: bs => strStartsWith needle (b :: bs) || strHasSub needle bs

/-- Models Python `needle in hay` on strings. -/
def strContains (hay needle : String) : Bool :=
  strHasSub needle.toList hay.toList

/-- Python `str.lower()`, modelled character-wise (core `String.toLower`
is well-founded recursion, which the kernel cannot evaluate). -/
def toLowerStr (s : String) : String :=
  String.mk (s.data.map Char.toLower)

/-- Models Python `needle in question.lower()`: case-insensitive
substring test. -/
def containsLower (question needle : String) : Bool :=
  strContains (toLowerStr question) needle

/-- Whitespace test used by Python `str.split()` (no arguments). -/
def isSpaceChar (c : Char) : Bool :=
  c == ' ' || c == '\t' || c == '\n' || c == '\r'

/-- Models Python `text.split()`: split on whitespace runs, dropping
empty pieces; `acc` is the current word accumulated in reverse. -/
def splitWordsAux : List Char → List Char → List String
  | [], acc => if acc.isEmpty then [] else [String.mk acc.reverse]
  | c :: cs, acc =>
    if isSpaceChar c then
      if acc.isEmpty then splitWordsAux cs []
      else String.mk acc.reverse :: splitWordsAux cs []
    else splitWordsAux cs (c :: acc)

/-- Python `text.split()` on a string. -/
def splitWords (s : String) : List String :=
  splitWordsAux s.data []

/-- Floor of a rational, computed from numerator and denominator. -/
def ratFloor (q : ℚ) : ℤ :=
  q.num.fdiv q.den

/-- Round a rational to the nearest integer, ties to even (the rounding
used by Python `round`). -/
def roundHalfEven (q : ℚ) : ℤ :=
  let f := ratFloor q
  let frac := q - (f : ℚ)
  if frac < 1 / 2 then f
  else if 1 / 2 < frac then f + 1
  else if f % 2 = 0 then f else f + 1

/-- Models Python `round(x, 3)` over exact rationals. -/
def round3 (q : ℚ) : ℚ :=
  (roundHalfEven (q * 1000) : ℚ) / 1000

/-! ## Validator (src/validator.py) -/

/-- One reasoning step as seen by the chain validator: a dictionary that
may or may not carry a `"confidence"` key. -/
structure VStep where
  confidence : Option ℚ
deriving DecidableEq

/-- Models `step.get("confidence", 0.0)`. -/
def getConf (s : VStep) : ℚ :=
  s.confidence.getD 0

/-- Result dictionary of `validate_mathematical_computation`. -/
structure MathValidation where
  expression : String
  expected_result : ℚ
  actual_result : Option ℚ
  error : Option String
  is_valid : Bool
  confidence : ℚ
deriving DecidableEq

/-- Result dictionary of `validate_external_fact`. -/
structure ExternalValidation where
  fact : String
  fact_type : String
  api_used : String
  is_valid : Bool
  confidence : ℚ
deriving DecidableEq

/-- Result dictionary of `perform_cross_validation`. -/
structure CrossValidation where
  facts : List String
  sources : List String
  consistency_score : ℚ
  is_valid : Bool
  confidence : ℚ
deriving DecidableEq

/-- Result dictionary of `validate_reasoning_chain`. -/
structure ChainValidation where
  reasoning_steps : List VStep
  average_confidence : ℚ
  is_consistent : Bool
  is_valid : Bool
  confidence : ℚ
deriving DecidableEq

/-- An entry of the validator's `validation_history` list. -/
inductive VRecord where
  | math (r : MathValidation)
  | external (r : ExternalValidation)
  | cross (r : CrossValidation)
  | chain (r : ChainValidation)
deriving DecidableEq

/-- `Validator.validate_mathematical_computation`.  Python `eval` is an
external primitive, passed in as `ev` (raising = `Except.error`).  On
success the result is appended to the history; the exception branch
returns without appending, exactly as in the source. -/
def validate_mathematical_computation (ev : String → Except String ℚ)
    (validation_history : List VRecord) (expression : String)
    (expected_result : ℚ) : MathValidation × List VRecord :=
  match ev expression with
  | .ok result =>
    let is_valid := decide (result = expected_result)
    let validation_result : MathValidation :=
      { expression := expression
        expected_result := expected_result
        actual_result := some result
        error := none
        is_valid := is_valid
        confidence := if is_valid then 1 else 0 }
    (validation_result, validation_history ++ [.math validation_result])
  | .error e =>
    ({ expression := expression
       expected_result := expected_result
       actual_result := none
       error := some e
       is_valid := false
       confidence := 0 }, validation_history)

/-- `Validator.validate_external_fact`. -/
def validate_external_fact (validation_history : List VRecord)
    (fact fact_type : String) : ExternalValidation × List VRecord :=
  let validation_result : ExternalValidation :=
    if fact_type = "ofac_sanctions" then
      let is_sanctioned := strContains (toLowerStr fact) "sanctioned"
      { fact := fact, fact_type := fact_type, api_used := "OFAC"
        is_valid := !is_sanctioned, confidence := 0.95 }
    else if fact_type = "sec_filings" then
      { fact := fact, fact_type := fact_type, api_used := "SEC"
        is_valid := true, confidence := 0.9 }
    else
      { fact := fact, fact_type := fact_type, api_used := "generic"
        is_valid := true, confidence := 0.8 }
  (validation_result, validation_history ++ [.external validation_result])

/-- `Validator.perform_cross_validation`: `len(set(facts))/len(facts)`
when `facts` is nonempty, else `0.0`. -/
def perform_cross_validation (validation_history : List VRecord)
    (facts sources : List String) : CrossValidation × List VRecord :=
  let validation_score : ℚ :=
    if facts.isEmpty then 0 else (facts.dedup.length : ℚ) / facts.length
  let validation_result : CrossValidation :=
    { facts := facts, sources := sources
      consistency_score := validation_score
      is_valid := decide (validation_score > 0.5)
      confidence := min (validation_score + 0.3) 1 }
  (validation_result, validation_history ++ [.cross validation_result])

/-- `Validator.validate_reasoning_chain`: average confidence guarded
against the empty chain, `is_consistent` iff all steps exceed 0.7,
`is_valid` additionally demands average above 0.75; reported confidence
is the average when consistent, else 0. -/
def validate_reasoning_chain (validation_history : List VRecord)
    (reasoning_steps : List VStep) : ChainValidation × List VRecord :=
  let avg_confidence : ℚ :=
    if reasoning_steps.isEmpty then 0
    else (reasoning_steps.map getConf).sum / reasoning_steps.length
  let is_consistent := reasoning_steps.all (fun s => decide (getConf s > 0.7))
  let validation_result : ChainValidation :=
    { reasoning_steps := reasoning_steps
      average_confidence := avg_confidence
      is_consistent := is_consistent
      is_valid := is_consistent && decide (avg_confidence > 0.75)
      confidence := if is_consistent then avg_confidence else 0 }
  (validation_result, validation_history ++ [.chain validation_result])

/-- Spec-side mean of the steps' confidences (`0/0 = 0` for rationals,
so the empty chain gets mean 0). -/
def meanConf (steps : List VStep) : ℚ :=
  (steps.map getConf).sum / steps.length

/-! ## Planner (src/planner_agent.py) -/

/-- Parsed question dictionary produced by `PlannerAgent.parse_question`. -/
structure ParsedQuestion where
  original_question : String
  entities : List String
  relations : List String
  question_type : String
deriving DecidableEq

/-- A sub-task dictionary; a missing `depends_on` key is modelled as the
empty dependency list. -/
structure SubTask where
  task_id : Nat
  task_type : String
  query : String
  description : String
  depends_on : List Nat := []
deriving DecidableEq

/-- `PlannerAgent._extract_entities`: the placeholder returns the empty
list for every question. -/
def extract_entities (_question : String) : List String :=
  []

/-- `PlannerAgent._extract_relations`: placeholder, always empty. -/
def extract_relations (_question : String) : List String :=
  []

/-- `PlannerAgent._classify_question_type`: first-match-wins rule over
case-insensitive substrings. -/
def classify_question_type (question : String) : String :=
  if containsLower question "who" then "entity_identification"
  else if containsLower question "what" then "fact_retrieval"
  else if containsLower question "how" || containsLower question "why" then
    "causal_reasoning"
  else "general"

/-- `PlannerAgent.parse_question`. -/
def parse_question (question : String) : ParsedQuestion :=
  { original_question := question
    entities := extract_entities question
    relations := extract_relations question
    question_type := classify_question_type question }

/-- `PlannerAgent.decompose_task`, threading the `task_history` list. -/
def decompose_task (task_history : List (String × List SubTask))
    (parsed_question : ParsedQuestion) :
    List SubTask × List (String × List SubTask) :=
  let original_question := parsed_question.original_question
  let question_type := parsed_question.question_type
  let sub_tasks : List SubTask :=
    if question_type = "entity_identification" then
      [ { task_id := 1, task_type := "entity_search"
          query := original_question
          description := "Find the main entity mentioned in the question" },
        { task_id := 2, task_type := "relation_search"
          query := "What are the key facts about the entity found in task 1?"
          description := "Find relationships and facts about the identified entity"
          depends_on := [1] } ]
    else if question_type = "fact_retrieval" then
      [ { task_id := 1, task_type := "initial_search"
          query := original_question
          description := "Initial search for the main fact" },
        { task_id := 2, task_type := "verification_search"
          query := "Verify the fact found in task 1 from multiple sources"
          description := "Cross-verify the retrieved fact"
          depends_on := [1] } ]
    else
      [ { task_id := 1, task_type := "comprehensive_search"
          query := original_question
          description := "Comprehensive search for the question" } ]
  (sub_tasks, task_history ++ [(original_question, sub_tasks)])

/-! ## Retriever (src/retriever.py) -/

/-- One retrieval result dictionary.  `doc_id` is the truncated md5 of
the content in the source; the hash is passed in as a parameter. -/
structure RetrievedResult where
  document : String
  score : ℚ
  source : String
  doc_id : String
deriving DecidableEq

/-- `BM25Retriever.search` (index already built): the first `top_k`
documents with simulated scores `1.0 - i*0.1`. -/
def bm25_search (h : String → String) (documents : List String)
    (top_k : Nat) : List RetrievedResult :=
  (documents.take top_k).enum.map (fun p =>
    { document := p.2
      score := 1 - (p.1 : ℚ) * 0.1
      source := "bm25"
      doc_id := h p.2 })

/-- `ContrieverRetriever.search` (model already loaded): the first
`top_k` documents with simulated scores `0.9 - i*0.1`. -/
def contriever_search (h : String → String) (documents : List String)
    (top_k : Nat) : List RetrievedResult :=
  (documents.take top_k).enum.map (fun p =>
    { document := p.2
      score := 0.9 - (p.1 : ℚ) * 0.1
      source := "contriever"
      doc_id := h p.2 })

/-- State of a `TraditionalRetriever`: the shared document list plus the
two readiness flags of its sub-retrievers. -/
structure TradRetrieverState where
  documents : List String
  index_built : Bool
  model_loaded : Bool
deriving DecidableEq

/-- `TraditionalRetriever.__init__` with no documents supplied. -/
def mkTraditionalRetriever (documents : List String) : TradRetrieverState :=
  { documents := documents, index_built := false, model_loaded := false }

/-- `TraditionalRetriever.initialize`: builds the BM25 index and loads
the dense model. -/
def retriever_setup (_st : TradRetrieverState) (documents : List String) :
    TradRetrieverState :=
  { documents := documents, index_built := true, model_loaded := true }

/-- The duplicate-removal loop of `hybrid_search`: keep the first
occurrence of each `doc_id`, `seen` being the set accumulated so far. -/
def dedupByDocId : List RetrievedResult → List String → List RetrievedResult
  | [], _ => []
  | r :: rest, seen =>
    if r.doc_id ∈ seen then dedupByDocId rest seen
    else r :: dedupByDocId rest (r.doc_id :: seen)

/-- Stable insertion used to model Python's stable
`sort(key=score, reverse=True)`: an element is placed before the first
strictly smaller score and after equal ones seen earlier. -/
def insertDesc (x : RetrievedResult) : List RetrievedResult → List RetrievedResult
  | [] => [x]
  | y :: ys => if y.score ≤ x.score then x :: y :: ys else y :: insertDesc x ys

/-- Stable descending sort by score. -/
def sortByScoreDesc : List RetrievedResult → List RetrievedResult
  | [] => []
  | x :: xs => insertDesc x (sortByScoreDesc xs)

/-- `TraditionalRetriever.hybrid_search`: both sub-searches raise when
their setup step has not run; otherwise concatenate (BM25 first),
deduplicate by `doc_id` keeping first occurrences, sort by score
descending and truncate to `top_k`. -/
def hybrid_search (h : String → String) (st : TradRetrieverState)
    (_query : String) (top_k : Nat) : Except String (List RetrievedResult) :=
  if !st.index_built then
    .error "Index not built. Call build_index() first."
  else if !st.model_loaded then
    .error "Model not loaded. Call load_model() first."
  else
    let bm25_results := bm25_search h st.documents top_k
    let contriever_results := contriever_search h st.documents top_k
    let combined_results := bm25_results ++ contriever_results
    let unique_results := dedupByDocId combined_results []
    .ok ((sortByScoreDesc unique_results).take top_k)

/-! ## Graph builder (src/graph_builder.py) -/

/-- `GraphBuilder.extract_triples`: keyword-matched demo triples, else a
single `(first word, related_to, last word)` triple when the text has at
least three whitespace-separated words. -/
def extract_triples (text : String) : List (String × String × String) :=
  if strContains text "Albert Einstein" then
    [("Albert Einstein", "born_in", "Ulm"),
     ("Albert Einstein", "worked_at", "Princeton University"),
     ("Albert Einstein", "developed", "Theory of Relativity")]
  else if strContains text "Marie Curie" then
    [("Marie Curie", "born_in", "Warsaw"),
     ("Marie Curie", "worked_at", "Sorbonne University"),
     ("Marie Curie", "discovered", "Radium")]
  else
    let words := splitWords text
    if 3 ≤ words.length then [(words.headD "", "related_to", words.getLastD "")]
    else []

/-- `GraphBuilder.build_graph_from_documents`: auto-connects when not
yet connected, extracts per document and concatenates (storage is a
print-only stub once connected, so it never fails here). -/
def build_graph_from_documents (_graph_ready : Bool)
    (documents : List String) : List (String × String × String) :=
  documents.foldr (fun doc acc => extract_triples doc ++ acc) []

/-! ## Reasoner (src/reasoner.py) -/

/-- Reasoning result dictionary; the three shapes (`path_finding`,
`entity_lookup`, `fallback`) are merged into one record with optional
fields. -/
structure ReasoningResult where
  reasoning_type : String
  source_entity : Option String := none
  target_entity : Option String := none
  path_results : List String := []
  entity : Option String := none
  results : List String := []
  answer : Option String := none
  confidence : ℚ
deriving DecidableEq

/-- `Reasoner.execute_cypher_query`: raises when not connected, else
returns canned rows keyed on substrings of the query text. -/
def execute_cypher_query (graph_connected : Bool) (query : String) :
    Except String (List String) :=
  if !graph_connected then
    .error "Not connected to graph. Call connect_to_graph() first."
  else if strContains query "Albert Einstein" && strContains query "Princeton" then
    .ok ["Albert Einstein worked at Princeton University"]
  else if strContains query "Marie Curie" && strContains query "Radium" then
    .ok ["Marie Curie discovered Radium"]
  else
    .ok ["Path found between entities"]

/-- The Cypher text built by `find_path_between_entities`. -/
def pathQueryText (source_entity target_entity : String) (max_hops : Nat) : String :=
  "MATCH path = shortestPath((s \x7bname: \x27" ++ source_entity ++
    "\x27\x7d)-[*1.." ++ toString max_hops ++ "]-(t \x7bname: \x27" ++
    target_entity ++ "\x27\x7d)) RETURN path"

/-- `Reasoner.find_path_between_entities`: auto-connects, then runs the
path query. -/
def find_path_between_entities (source_entity target_entity : String)
    (max_hops : Nat) : Except String (List String) :=
  execute_cypher_query true (pathQueryText source_entity target_entity max_hops)

/-- `Reasoner.perform_multi_hop_reasoning`: with two or more entities,
path-find between first and last (confidence 0.85); with exactly one,
look the entity up (confidence 0.9); with none, `entities[0]` raises an
index error. -/
def perform_multi_hop_reasoning (entities _relations : List String) :
    Except String ReasoningResult :=
  if 2 ≤ entities.length then
    let source := entities.headD ""
    let target := entities.getLastD ""
    match find_path_between_entities source target 3 with
    | .ok path_results =>
      .ok { reasoning_type := "path_finding"
            source_entity := some source
            target_entity := some target
            path_results := path_results
            confidence := 0.85 }
    | .error e => .error e
  else
    match entities with
    | [] => .error "IndexError: list index out of range"
    | e :: _ =>
      match execute_cypher_query true
          ("MATCH (e \x7bname: \x27" ++ e ++ "\x27\x7d) RETURN e") with
      | .ok results =>
        .ok { reasoning_type := "entity_lookup"
              entity := some e
              results := results
              confidence := 0.9 }
      | .error err => .error err

/-! ## Answer generator (src/answer_generator.py) -/

/-- An entry of an answer's `reasoning_steps` list: either the reasoning
result or the chain-validation result. -/
inductive StepRecord where
  | reasoning (r : ReasoningResult)
  | validation (v : ChainValidation)
deriving DecidableEq

/-- The structured answer dictionary.  The error answer built by the
orchestrator has no `validation_status` key (`none`) and carries the raw
message under `error`. -/
structure Answer where
  question_id : String
  answer : String
  answer_type : String
  confidence : ℚ
  evidence : List String
  reasoning_steps : List StepRecord
  validation_status : Option String := none
  error : Option String := none
deriving DecidableEq

/-- `AnswerGenerator.generate_answer`: rounds the confidence to three
decimals and derives `validation_status` from the unrounded value. -/
def generate_answer (question_id answer : String) (question_type : String)
    (confidence : ℚ) (evidence : List String)
    (reasoning_steps : List StepRecord) : Answer :=
  { question_id := question_id
    answer := answer
    answer_type := question_type
    confidence := round3 confidence
    evidence := evidence
    reasoning_steps := reasoning_steps
    validation_status :=
      some (if confidence > 0.7 then "validated" else "needs_review") }

/-! ## Orchestrator (src/main_agent.py) -/

/-- The fallback reasoning result substituted by the orchestrator when
the parse yields no entities. -/
def fallbackResult : ReasoningResult :=
  { reasoning_type := "fallback"
    answer := some "No entities found, using direct retrieval"
    confidence := 0.6 }

/-- Step 4 of `process_question`: call the reasoner only when the entity
list is nonempty, else substitute the fallback result. -/
def reasoning_step (entities relations : List String) :
    Except String ReasoningResult :=
  if entities.isEmpty then .ok fallbackResult
  else perform_multi_hop_reasoning entities relations

/-- State of a `MultiHopAgent` after construction / system setup. -/
structure AgentState where
  system_ready : Bool
  retriever : TradRetrieverState
  graph_ready : Bool
  reasoner_connected : Bool
  validator_history : List VRecord
  planner_history : List (String × List SubTask)
deriving DecidableEq

/-- `MultiHopAgent.initialize_system`: constructs all components and
feeds the retriever only when `documents` is truthy (non-`None` and
nonempty, per Python truthiness). -/
def agent_setup (documents : Option (List String)) : AgentState :=
  let retriever0 := mkTraditionalRetriever []
  { system_ready := true
    retriever :=
      match documents with
      | some ds => if ds.isEmpty then retriever0 else retriever_setup retriever0 ds
      | none => retriever0
    graph_ready := true
    reasoner_connected := true
    validator_history := []
    planner_history := [] }

/-- The per-sub-task retrieval loop of step 2, collecting all results in
task order; the first `NotReady` error aborts the loop. -/
def retrieve_all (h : String → String) (rst : TradRetrieverState) :
    List SubTask → Except String (List RetrievedResult)
  | [] => .ok []
  | t :: ts =>
    match hybrid_search h rst t.query 5 with
    | .error e => .error e
    | .ok rs =>
      match retrieve_all h rst ts with
      | .error e => .error e
      | .ok rest => .ok (rs ++ rest)

/-- Order-preserving first-occurrence deduplication of the retrieved
document texts (step 2 of `process_question`). -/
def dedup_docs : List String → List String → List String
  | [], _ => []
  | d :: rest, seen =>
    if d ∈ seen then dedup_docs rest seen
    else d :: dedup_docs rest (d :: seen)

/-- All intermediate values of one successful pipeline run. -/
structure PipelineOutput where
  parsed : ParsedQuestion
  sub_tasks : List SubTask
  unique_docs : List String
  triples : List (String × String × String)
  reasoning : ReasoningResult
  validation : ChainValidation
  answer : Answer
deriving DecidableEq

/-- The body of the `try` block of `MultiHopAgent.process_question`:
decompose, retrieve per sub-task (top 5), deduplicate, build the graph,
reason (or fall back), validate the one-element chain, and synthesize
the answer with evidence truncated to three documents.  `strFn` models
Python `str()` on the reasoning dictionary. -/
def run_pipeline (h : String → String) (strFn : ReasoningResult → String)
    (st : AgentState) (question question_id : String) :
    Except String (PipelineOutput × AgentState) :=
  let parsed := parse_question question
  let tasks_and_history := decompose_task st.planner_history parsed
  let sub_tasks := tasks_and_history.1
  match retrieve_all h st.retriever sub_tasks with
  | .error e => .error e
  | .ok retrieved =>
    let unique_docs := dedup_docs (retrieved.map (·.document)) []
    let triples := build_graph_from_documents st.graph_ready unique_docs
    match reasoning_step parsed.entities parsed.relations with
    | .error e => .error e
    | .ok reasoning =>
      let validated := validate_reasoning_chain st.validator_history
        [{ confidence := some reasoning.confidence }]
      let validation := validated.1
      let answer := generate_answer question_id (strFn reasoning)
        parsed.question_type (reasoning.confidence * validation.confidence)
        (unique_docs.take 3)
        [StepRecord.reasoning reasoning, StepRecord.validation validation]
      .ok ({ parsed := parsed, sub_tasks := sub_tasks, unique_docs := unique_docs
             triples := triples, reasoning := reasoning, validation := validation
             answer := answer },
           { st with planner_history := tasks_and_history.2
                     validator_history := validated.2 })

/-- `MultiHopAgent.process_question`: raises (outer `Except`) only when
the system was never set up; any failure inside the pipeline is caught
and converted into the degraded error answer. -/
def process_question (h : String → String) (strFn : ReasoningResult → String)
    (st : AgentState) (question question_id : String) :
    Except String (Answer × AgentState) :=
  if !st.system_ready then
    .error "System not initialized. Call initialize_system() first."
  else
    match run_pipeline h strFn st question question_id with
    | .ok (out, st') => .ok (out.answer, st')
    | .error e =>
      .ok ({ question_id := question_id
             answer := "Error: " ++ e
             answer_type := "error"
             confidence := 0
             evidence := []
             reasoning_steps := []
             validation_status := none
             error := some e }, st)

/-! ## Helper lemmas -/

theorem mem_insertDesc {x a : RetrievedResult} {l : List RetrievedResult} :
    a ∈ insertDesc x l ↔ a = x ∨ a ∈ l := by
  induction l with
  | nil => simp [insertDesc]
  | cons y ys ih =>
    simp only [insertDesc]
    split
    · simp [List.mem_cons]
    · simp only [List.mem_cons, ih]
      tauto

theorem perm_insertDesc (x : RetrievedResult) (l : List RetrievedResult) :
    List.Perm (insertDesc x l) (x :: l) := by
  induction l with
  | nil => exact List.Perm.refl _
  | cons y ys ih =>
    simp only [insertDesc]
    split
    · exact List.Perm.refl _
    · exact (ih.cons y).trans (List.Perm.swap x y ys)

theorem perm_sortByScoreDesc (l : List RetrievedResult) :
    List.Perm (sortByScoreDesc l) l := by
  induction l with
  | nil => exact List.Perm.refl _
  | cons x xs ih =>
    exact (perm_insertDesc x (sortByScoreDesc xs)).trans (ih.cons x)

theorem pairwise_insertDesc {x : RetrievedResult} {l : List RetrievedResult}
    (hl : l.Pairwise (fun a b => b.score ≤ a.score)) :
    (insertDesc x l).Pairwise (fun a b => b.score ≤ a.score) := by
  induction l with
  | nil => simp [insertDesc]
  | cons y ys ih =>
    rcases List.pairwise_cons.mp hl with ⟨hy, hys⟩
    simp only [insertDesc]
    split
    · rename_i hle
      refine List.Pairwise.cons ?_ hl
      intro b hb
      rcases List.mem_cons.mp hb with hb | hb
      · exact hb ▸ hle
      · exact (hy b hb).trans hle
    · rename_i hgt
      refine List.Pairwise.cons ?_ (ih hys)
      intro b hb
      rcases mem_insertDesc.mp hb with hb | hb
      · exact hb ▸ le_of_lt (lt_of_not_le hgt)
      · exact hy b hb

theorem pairwise_sortByScoreDesc (l : List RetrievedResult) :
    (sortByScoreDesc l).Pairwise (fun a b => b.score ≤ a.score) := by
  induction l with
  | nil => simp [sortByScoreDesc]
  | cons x xs ih =>
    exact pairwise_insertDesc ih

theorem dedupByDocId_not_seen :
    ∀ (l : List RetrievedResult) (seen : List String),
      ∀ a ∈ dedupByDocId l seen, a.doc_id ∉ seen := by
  intro l
  induction l with
  | nil => intro seen a ha; simp [dedupByDocId] at ha
  | cons r rest ih =>
    intro seen a ha
    simp only [dedupByDocId] at ha
    split at ha
    · exact ih seen a ha
    · rcases List.mem_cons.mp ha with rfl | ha
      · rename_i hmem; exact hmem
      · intro hc
        exact ih _ a ha (List.mem_cons_of_mem _ hc)

theorem nodup_dedupByDocId :
    ∀ (l : List RetrievedResult) (seen : List String),
      ((dedupByDocId l seen).map (·.doc_id)).Nodup := by
  intro l
  induction l with
  | nil => intro seen; simp [dedupByDocId]
  | cons r rest ih =>
    intro seen
    simp only [dedupByDocId]
    split
    · exact ih seen
    · simp only [List.map_cons, List.nodup_cons]
      refine ⟨?_, ih _⟩
      intro hmem
      rcases List.mem_map.mp hmem with ⟨a, ha, hid⟩
      exact dedupByDocId_not_seen rest _ a ha (hid ▸ List.mem_cons_self _ _)

theorem sublist_dedupByDocId :
    ∀ (l : List RetrievedResult) (seen : List String),
      List.Sublist (dedupByDocId l seen) l := by
  intro l
  induction l with
  | nil => intro seen; simp [dedupByDocId]
  | cons r rest ih =>
    intro seen
    simp only [dedupByDocId]
    split
    · exact (ih seen).cons r
    · exact (ih _).cons₂ r

theorem execute_cypher_ok (q : String) :
    ∃ rows, execute_cypher_query true q = .ok rows := by
  unfold execute_cypher_query
  split
  · rename_i hc; simp at hc
  · split
    · exact ⟨_, rfl⟩
    · split
      · exact ⟨_, rfl⟩
      · exact ⟨_, rfl⟩

/-! ## Claim theorems: chain validator -/

/-- C1: for every list of reasoning steps, the reported confidence is
the mean of the steps' confidences when every step exceeds 0.7 and 0.0
otherwise; `is_consistent` holds iff every step exceeds 0.7; `is_valid`
holds iff `is_consistent` holds and the mean exceeds 0.75; and on the
empty list the result has confidence 0.0 and `is_valid = false`, the
average being computed through the emptiness guard rather than by a
division by zero. -/
theorem C1_validate_reasoning_chain_contract (hist : List VRecord)
    (steps : List VStep) :
    ((validate_reasoning_chain hist steps).1.confidence =
      if steps.all (fun s => decide (getConf s > 0.7)) then meanConf steps else 0)
    ∧ ((validate_reasoning_chain hist steps).1.is_consistent = true ↔
        ∀ s ∈ steps, getConf s > 0.7)
    ∧ ((validate_reasoning_chain hist steps).1.is_valid = true ↔
        ((validate_reasoning_chain hist steps).1.is_consistent = true
          ∧ meanConf steps > 0.75))
    ∧ (validate_reasoning_chain hist []).1.confidence = 0
    ∧ (validate_reasoning_chain hist []).1.is_valid = false := by
  refine ⟨?_, ?_, ?_, ?_, ?_⟩
  · cases steps with
    | nil => simp [validate_reasoning_chain, meanConf]
    | cons a l => simp [validate_reasoning_chain, meanConf]
  · simp [validate_reasoning_chain, List.all_eq_true]
  · cases steps with
    | nil =>
      simp only [validate_reasoning_chain, meanConf]
      norm_num
    | cons a l =>
      simp only [validate_reasoning_chain, meanConf, List.isEmpty_cons,
        Bool.false_eq_true, if_false, Bool.and_eq_true, decide_eq_true_eq]
  · simp [validate_reasoning_chain]
  · simp only [validate_reasoning_chain]
    norm_num

/-- C5 counterexample: on the empty step list every step's confidence is
(vacuously) at most 0.7, yet the validator reports
`is_consistent = true`, because `all` of an empty list holds. -/
theorem C5_counterexample :
    (∀ s ∈ ([] : List VStep), getConf s ≤ 0.7)
    ∧ (validate_reasoning_chain [] []).1.is_consistent = true := by
  exact ⟨by simp, rfl⟩

/-- C5 (amended): for every list of reasoning steps in which every
step's confidence is at most 0.7, the reported confidence is 0.0, and
`is_consistent` is false exactly when the list is nonempty (on the empty
list it is vacuously true). -/
theorem C5_low_confidence_chains (hist : List VRecord) (steps : List VStep)
    (h : ∀ s ∈ steps, getConf s ≤ 0.7) :
    (validate_reasoning_chain hist steps).1.confidence = 0
    ∧ (validate_reasoning_chain hist steps).1.is_consistent = steps.isEmpty := by
  cases steps with
  | nil => exact ⟨rfl, rfl⟩
  | cons a l =>
    have ha : ¬ (getConf a > 0.7) := not_lt.mpr (h a (List.mem_cons_self a l))
    constructor
    · simp [validate_reasoning_chain, ha]
    · simp [validate_reasoning_chain, ha]

/-- Witness for C5: a one-step chain with confidence 0.5. -/
theorem C5_witness :
    (∀ s ∈ [VStep.mk (some 0.5)], getConf s ≤ 0.7)
    ∧ (validate_reasoning_chain [] [VStep.mk (some 0.5)]).1.confidence = 0
    ∧ (validate_reasoning_chain [] [VStep.mk (some 0.5)]).1.is_consistent
        = [VStep.mk (some (0.5 : ℚ))].isEmpty := by
  have h : ∀ s ∈ [VStep.mk (some 0.5)], getConf s ≤ 0.7 := by
    intro s hs
    simp only [List.mem_singleton] at hs
    subst hs
    simp only [getConf, Option.getD]
    norm_num
  exact ⟨h, (C5_low_confidence_chains [] _ h).1, (C5_low_confidence_chains [] _ h).2⟩

/-- C7: mathematical validation reports `is_valid = true` with
confidence 1.0 exactly when re-evaluation yields the expected value, and
`is_valid = false` with confidence 0.0 otherwise — in particular when
evaluation raises, the exception is caught and turned into such a
result instead of propagating. -/
theorem C7_validate_mathematical_contract (ev : String → Except String ℚ)
    (hist : List VRecord) (expression : String) (expected : ℚ) :
    (((validate_mathematical_computation ev hist expression expected).1.is_valid = true
        ∧ (validate_mathematical_computation ev hist expression expected).1.confidence = 1)
      ↔ ev expression = .ok expected)
    ∧ (((validate_mathematical_computation ev hist expression expected).1.is_valid = false
        ∧ (validate_mathematical_computation ev hist expression expected).1.confidence = 0)
      ↔ ev expression ≠ .ok expected) := by
  cases hev : ev expression with
  | ok v =>
    by_cases hv : v = expected
    · subst hv
      simp [validate_mathematical_computation, hev]
    · simp [validate_mathematical_computation, hev, hv]
  | error e =>
    simp [validate_mathematical_computation, hev]

/-- C10 counterexample: a mathematical validation whose evaluation
raises appends nothing to the validation history, so a failing input
does not grow the history by one. -/
theorem C10_counterexample :
    ((validate_mathematical_computation (fun _ => .error "SyntaxError: invalid syntax")
        [] "2 +" 2).2).length = 0 := by
  rfl

/-- C10 (amended): every external-fact, cross-source and chain-level
validation appends exactly one result to the in-memory history, and a
mathematical validation appends exactly one result when evaluation
succeeds and nothing when evaluation raises. -/
theorem C10_history_growth (ev : String → Except String ℚ)
    (hist : List VRecord) (expression : String) (expected : ℚ)
    (fact fact_type : String) (facts sources : List String)
    (steps : List VStep) :
    (validate_external_fact hist fact fact_type).2.length = hist.length + 1
    ∧ (perform_cross_validation hist facts sources).2.length = hist.length + 1
    ∧ (validate_reasoning_chain hist steps).2.length = hist.length + 1
    ∧ (validate_mathematical_computation ev hist expression expected).2.length
        = hist.length + (cond (ev expression).isOk 1 0) := by
  refine ⟨?_, ?_, ?_, ?_⟩
  · simp [validate_external_fact]
  · simp [perform_cross_validation]
  · simp [validate_reasoning_chain]
  · cases hev : ev expression with
    | ok v => simp [validate_mathematical_computation, hev, Except.isOk, Except.toBool]
    | error e => simp [validate_mathematical_computation, hev, Except.isOk, Except.toBool]

/-! ## Claim theorems: planner -/

/-- C6: classification applies the first matching rule over
case-insensitive substrings ("who" → entity_identification, else "what"
→ fact_retrieval, else "how"/"why" → causal_reasoning, else general),
and decomposition yields exactly two sub-tasks with task 2 depending on
task 1 for the first two types and a single sub-task with no dependency
otherwise. -/
theorem C6_classification_and_decomposition
    (hist : List (String × List SubTask)) (q : String) :
    (classify_question_type q = "entity_identification" ↔
      containsLower q "who" = true)
    ∧ (classify_question_type q = "fact_retrieval" ↔
        (containsLower q "who" = false ∧ containsLower q "what" = true))
    ∧ (classify_question_type q = "causal_reasoning" ↔
        (containsLower q "who" = false ∧ containsLower q "what" = false
          ∧ (containsLower q "how" = true ∨ containsLower q "why" = true)))
    ∧ (classify_question_type q = "general" ↔
        (containsLower q "who" = false ∧ containsLower q "what" = false
          ∧ containsLower q "how" = false ∧ containsLower q "why" = false))
    ∧ (((decompose_task hist (parse_question q)).1.map SubTask.task_id,
        (decompose_task hist (parse_question q)).1.map SubTask.depends_on) =
        if classify_question_type q = "entity_identification"
            ∨ classify_question_type q = "fact_retrieval"
        then ([1, 2], [[], [1]]) else ([1], [[]])) := by
  cases h1 : containsLower q "who" <;>
    cases h2 : containsLower q "what" <;>
      cases h3 : containsLower q "how" <;>
        cases h4 : containsLower q "why" <;>
          simp [classify_question_type, parse_question, decompose_task,
            h1, h2, h3, h4]

/-! ## Claim theorems: retriever -/

/-- C3: on an initialized document collection, for every query and every
`top_k ≥ 1`, `hybrid_search` succeeds and returns at most `top_k`
results, with pairwise distinct `doc_id`s, sorted by score in descending
order, every result coming from the merged list in which the lexical
(BM25) ranking precedes the dense ranking. -/
theorem C3_hybrid_search_contract (h : String → String) (ds docs : List String)
    (q : String) (k : Nat) (_hk : 1 ≤ k) :
    ∃ rs, hybrid_search h (retriever_setup (mkTraditionalRetriever ds) docs) q k
        = .ok rs
      ∧ rs.length ≤ k
      ∧ (rs.map RetrievedResult.doc_id).Nodup
      ∧ rs.Pairwise (fun a b => b.score ≤ a.score)
      ∧ ∀ r ∈ rs, r ∈ bm25_search h docs k ++ contriever_search h docs k := by
  have hu : hybrid_search h (retriever_setup (mkTraditionalRetriever ds) docs) q k
      = .ok ((sortByScoreDesc (dedupByDocId
          (bm25_search h docs k ++ contriever_search h docs k) [])).take k) := rfl
  refine ⟨_, hu, ?_, ?_, ?_, ?_⟩
  · simp [List.length_take]
  · have hnd : ((dedupByDocId
        (bm25_search h docs k ++ contriever_search h docs k) []).map
          (·.doc_id)).Nodup := nodup_dedupByDocId _ _
    have hperm := (perm_sortByScoreDesc (dedupByDocId
      (bm25_search h docs k ++ contriever_search h docs k) [])).map
        (·.doc_id)
    have hnd2 : ((sortByScoreDesc (dedupByDocId
        (bm25_search h docs k ++ contriever_search h docs k) [])).map
          (·.doc_id)).Nodup := (List.Perm.nodup_iff hperm).mpr hnd
    rw [List.map_take]
    exact List.Nodup.sublist (List.take_sublist _ _) hnd2
  · exact List.Pairwise.sublist (List.take_sublist k _)
      (pairwise_sortByScoreDesc _)
  · intro r hr
    have hr1 : r ∈ sortByScoreDesc (dedupByDocId
        (bm25_search h docs k ++ contriever_search h docs k) []) :=
      List.Sublist.mem hr (List.take_sublist k _)
    have hr2 : r ∈ dedupByDocId
        (bm25_search h docs k ++ contriever_search h docs k) [] :=
      (perm_sortByScoreDesc _).mem_iff.mp hr1
    exact List.Sublist.mem hr2 (sublist_dedupByDocId _ _)

/-- Witness for C3 at a concrete initialized collection and `top_k = 2`. -/
theorem C3_witness :
    1 ≤ 2
    ∧ ∃ rs, hybrid_search (fun s => s)
        (retriever_setup (mkTraditionalRetriever []) ["alpha", "beta"]) "q" 2
          = .ok rs
      ∧ rs.length ≤ 2
      ∧ (rs.map RetrievedResult.doc_id).Nodup
      ∧ rs.Pairwise (fun a b => b.score ≤ a.score)
      ∧ ∀ r ∈ rs, r ∈ bm25_search (fun s => s) ["alpha", "beta"] 2
          ++ contriever_search (fun s => s) ["alpha", "beta"] 2 :=
  ⟨by decide, C3_hybrid_search_contract (fun s => s) [] ["alpha", "beta"] "q" 2
    (by decide)⟩

/-- C8: `hybrid_search` fails with an error exactly when the retriever
was never initialized: on the freshly constructed retriever it raises
the index-not-built error, after initialization it always succeeds, and
after initialization with an empty document collection it returns the
empty result list. -/
theorem C8_search_requires_setup (h : String → String) (ds docs : List String)
    (q : String) (k : Nat) :
    hybrid_search h (mkTraditionalRetriever ds) q k
      = .error "Index not built. Call build_index() first."
    ∧ (∃ rs, hybrid_search h (retriever_setup (mkTraditionalRetriever ds) docs) q k
        = .ok rs)
    ∧ hybrid_search h (retriever_setup (mkTraditionalRetriever ds) []) q k
      = .ok [] := by
  refine ⟨rfl, ⟨_, rfl⟩, ?_⟩
  simp [hybrid_search, retriever_setup, bm25_search, contriever_search,
    dedupByDocId, sortByScoreDesc, List.take_nil, List.enum_nil]

/-! ## Claim theorems: orchestrator -/

/-- C9: when the parse yields no entities (which the placeholder parser
always does), the orchestrator's reasoning step substitutes the fallback
result of type "fallback" instead of calling the reasoner; the
reasoner's unguarded `entities[0]` indexing raises exactly on the empty
list, the guarded step never surfaces that error, and the fallback
confidence is below the reasoner's path-finding confidence. -/
theorem C9_fallback_substitution (relations : List String) :
    reasoning_step [] relations = .ok fallbackResult
    ∧ fallbackResult.reasoning_type = "fallback"
    ∧ perform_multi_hop_reasoning [] relations
        = .error "IndexError: list index out of range"
    ∧ (∀ entities, ∃ r, reasoning_step entities relations = .ok r)
    ∧ (∀ e1 e2 rest, ∃ r,
        perform_multi_hop_reasoning (e1 :: e2 :: rest) relations = .ok r
          ∧ fallbackResult.confidence < r.confidence)
    ∧ (∀ q, (parse_question q).entities = []) := by
  refine ⟨rfl, rfl, rfl, ?_, ?_, fun q => rfl⟩
  · intro entities
    match entities with
    | [] => exact ⟨fallbackResult, rfl⟩
    | [e] =>
      rcases execute_cypher_ok ("MATCH (e \x7bname: \x27" ++ e ++ "\x27\x7d) RETURN e")
        with ⟨rows, hrows⟩
      refine ⟨{ reasoning_type := "entity_lookup", entity := some e,
                results := rows, confidence := 0.9 }, ?_⟩
      simp [reasoning_step, perform_multi_hop_reasoning, hrows]
    | e1 :: e2 :: rest =>
      rcases execute_cypher_ok
          (pathQueryText e1 ((e2 :: rest).getLastD "") 3) with ⟨rows, hrows⟩
      refine ⟨{ reasoning_type := "path_finding", source_entity := some e1,
                target_entity := some ((e2 :: rest).getLastD ""),
                path_results := rows, confidence := 0.85 }, ?_⟩
      simp only [reasoning_step, List.isEmpty_cons, Bool.false_eq_true, if_false,
        perform_multi_hop_reasoning, List.length_cons, find_path_between_entities]
      rw [show ((e1 :: e2 :: rest).headD "") = e1 from rfl]
      split
      · rw [show ((e1 :: e2 :: rest).getLastD "") = (e2 :: rest).getLastD "" from rfl]
        rw [hrows]
      · rename_i hlt
        exact absurd (by omega : 2 ≤ rest.length + 1 + 1) hlt
  · intro e1 e2 rest
    rcases execute_cypher_ok
        (pathQueryText e1 ((e2 :: rest).getLastD "") 3) with ⟨rows, hrows⟩
    refine ⟨{ reasoning_type := "path_finding", source_entity := some e1,
              target_entity := some ((e2 :: rest).getLastD ""),
              path_results := rows, confidence := 0.85 }, ?_, ?_⟩
    · simp only [perform_multi_hop_reasoning, List.length_cons,
        find_path_between_entities]
      rw [show ((e1 :: e2 :: rest).headD "") = e1 from rfl]
      split
      · rw [show ((e1 :: e2 :: rest).getLastD "") = (e2 :: rest).getLastD "" from rfl]
        rw [hrows]
      · rename_i hlt
        exact absurd (by omega : 2 ≤ rest.length + 1 + 1) hlt
    · show (0.6 : ℚ) < 0.85
      norm_num

/-- C2 counterexample: with the system set up but no documents supplied,
the retrieval stage raises "Index not built. Call build_index() first.";
the orchestrator catches it and returns a structured error answer, but
the answer text is the message prefixed with "Error: ", not the error
message itself. -/
theorem C2_counterexample :
    process_question (fun s => s) (fun _ => "") (agent_setup none) "hi" "q1"
      = .ok ({ question_id := "q1"
               answer := "Error: Index not built. Call build_index() first."
               answer_type := "error"
               confidence := 0
               evidence := []
               reasoning_steps := []
               validation_status := none
               error := some "Index not built. Call build_index() first." },
             agent_setup none)
    ∧ ("Error: Index not built. Call build_index() first."
        ≠ "Index not built. Call build_index() first.") := by
  refine ⟨rfl, ?_⟩
  decide

/-- C2 (amended): for every question processed by an initialized
orchestrator, `process_question` returns a structured answer rather
than propagating the fault, and whenever any pipeline stage raises, the
answer has `answer_type = "error"`, confidence 0.0, empty evidence, the
raw message stored under `error`, and the answer text equal to the error
message prefixed with "Error: ". -/
theorem C2_error_containment (h : String → String)
    (strFn : ReasoningResult → String) (st : AgentState)
    (question question_id : String) (hready : st.system_ready = true) :
    ∃ res, process_question h strFn st question question_id = .ok res
      ∧ ∀ e, run_pipeline h strFn st question question_id = .error e →
          res.1.answer_type = "error" ∧ res.1.confidence = 0
          ∧ res.1.evidence = [] ∧ res.1.answer = "Error: " ++ e
          ∧ res.1.error = some e := by
  unfold process_question
  rw [hready]
  cases hpipe : run_pipeline h strFn st question question_id with
  | ok p =>
    refine ⟨(p.1.answer, p.2), ?_, ?_⟩
    · simp
    · intro e he
      exact absurd he (by simp)
  | error e =>
    refine ⟨({ question_id := question_id, answer := "Error: " ++ e
               answer_type := "error", confidence := 0, evidence := []
               reasoning_steps := [], validation_status := none
               error := some e }, st), ?_, ?_⟩
    · simp
    · intro e' he'
      cases he'
      exact ⟨rfl, rfl, rfl, rfl, rfl⟩

/-- Witness for C2 on a concrete initialized agent. -/
theorem C2_witness :
    (agent_setup none).system_ready = true
    ∧ ∃ res, process_question (fun s => s) (fun _ => "r") (agent_setup none)
          "what time" "q" = .ok res
      ∧ ∀ e, run_pipeline (fun s => s) (fun _ => "r") (agent_setup none)
            "what time" "q" = .error e →
          res.1.answer_type = "error" ∧ res.1.confidence = 0
          ∧ res.1.evidence = [] ∧ res.1.answer = "Error: " ++ e
          ∧ res.1.error = some e :=
  ⟨rfl, C2_error_containment (fun s => s) (fun _ => "r") (agent_setup none)
    "what time" "q" rfl⟩

theorem round3_zero : round3 0 = 0 := by
  have hf : ratFloor 0 = 0 := by
    simp [ratFloor]
  have hr : roundHalfEven 0 = 0 := by
    simp only [roundHalfEven, hf]
    norm_num
  simp only [round3, zero_mul, hr, Int.cast_zero, zero_div]

/-- C4: every answer synthesized on the non-error path of the pipeline
has a confidence equal to the product of the reasoning result's
confidence and the validation result's confidence (the parse always
yields no entities, so the factors are always 0.6 and 0.0, whose product
0.0 is preserved exactly by the three-decimal rounding). -/
theorem C4_confidence_product (h : String → String)
    (strFn : ReasoningResult → String) (st : AgentState)
    (question question_id : String) (out : PipelineOutput) (st' : AgentState)
    (hok : run_pipeline h strFn st question question_id = .ok (out, st')) :
    out.answer.confidence = out.reasoning.confidence * out.validation.confidence := by
  simp only [run_pipeline, parse_question, extract_entities, extract_relations,
    reasoning_step, List.isEmpty_nil, if_true] at hok
  cases hret : retrieve_all h st.retriever
      (decompose_task st.planner_history
        { original_question := question, entities := [], relations := []
          question_type := classify_question_type question }).1 with
  | error e =>
    rw [hret] at hok
    exact absurd hok (by simp)
  | ok retrieved =>
    rw [hret] at hok
    simp only [Except.ok.injEq, Prod.mk.injEq] at hok
    obtain ⟨hout, -⟩ := hok
    subst hout
    show round3 (fallbackResult.confidence *
        (validate_reasoning_chain st.validator_history
          [{ confidence := some fallbackResult.confidence }]).1.confidence)
      = fallbackResult.confidence *
        (validate_reasoning_chain st.validator_history
          [{ confidence := some fallbackResult.confidence }]).1.confidence
    have hv : (validate_reasoning_chain st.validator_history
        [{ confidence := some fallbackResult.confidence }]).1.confidence = 0 := by
      simp only [validate_reasoning_chain, fallbackResult, List.all_cons, List.all_nil,
        Bool.and_true, getConf, Option.getD]
      norm_num
    rw [hv, mul_zero]
    exact round3_zero

/-- Witness for C4 on a concrete successful pipeline run. -/
theorem C4_witness :
    ∃ p, run_pipeline (fun s => s) (fun _ => "r")
        (agent_setup (some ["alpha beta gamma"])) "who" "q" = .ok p
      ∧ p.1.answer.confidence
          = p.1.reasoning.confidence * p.1.validation.confidence := by
  obtain ⟨p, hp⟩ : ∃ p, run_pipeline (fun s => s) (fun _ => "r")
      (agent_setup (some ["alpha beta gamma"])) "who" "q" = .ok p := ⟨_, rfl⟩
  have hok : run_pipeline (fun s => s) (fun _ => "r")
      (agent_setup (some ["alpha beta gamma"])) "who" "q" = .ok (p.1, p.2) := by
    rw [Prod.mk.eta]
    exact hp
  exact ⟨p, hp, C4_confidence_product _ _ _ _ _ p.1 p.2 hok⟩
